import Mathlib

/-!
Shallow embedding of the pinax-stripe synchronization and admin-filter code
(`pinax/stripe/actions/orders.py`, `pinax/stripe/actions/plans.py`,
`pinax/stripe/admin.py`).

Conventions of the embedding:
  * A Stripe API payload field read with `.get("x")` becomes an `Option` field
    (`none` = key absent or JSON null, which Python's `dict.get` conflates).
  * Python truthiness of such a value is made explicit (`pyTruthyStr`,
    `pyTruthyInt`).
  * Remote API responses are oracle parameters of the embedded functions: the
    network call itself is represented by an entry in a returned trace of
    remote-call names, and its response is passed in by the caller.
  * Exceptions become `Except PyError`; the database tables become explicit
    lists of records threaded through the functions, together with a count of
    row writes (each `INSERT` or `save()` is one write).
  * Monetary decimals are represented by `Rat`.
-/

/-- A Stripe client-library error.  `invalidRequestError` is the class the
source catches (`stripe.InvalidRequestError`); `apiError` stands for every
other exception class the provider may raise. -/
inductive StripeError where
  | invalidRequestError (msg : String) : StripeError
  | apiError (msg : String) : StripeError
deriving DecidableEq, Repr

/-- A Python-level exception escaping one of the embedded functions. -/
inductive PyError where
  | valueError (msg : String) : PyError
  | doesNotExist (msg : String) : PyError
  | attributeError (msg : String) : PyError
  | stripeErr (e : StripeError) : PyError
deriving DecidableEq, Repr

instance {ε α : Type} [DecidableEq ε] [DecidableEq α] :
    DecidableEq (Except ε α) := fun a b =>
  match a, b with
  | .ok x, .ok y => decidable_of_iff (x = y) (by simp)
  | .error e, .error f => decidable_of_iff (e = f) (by simp)
  | .ok _, .error _ => isFalse (by simp)
  | .error _, .ok _ => isFalse (by simp)

/-- Python truthiness of an optional string: `None` and `""` are falsy. -/
def pyTruthyStr : Option String → Bool
  | none => false
  | some s => decide (s ≠ "")

/-- Python truthiness of an optional integer: `None` and `0` are falsy. -/
def pyTruthyInt : Option Int → Bool
  | none => false
  | some n => decide (n ≠ 0)

/-- Modelled from the spec: the documented zero-decimal currency set used by
`pinax/stripe/utils.py`, which is not part of this source tree (spec 4.1:
currencies the provider represents without a minor unit). -/
def zero_decimal_currencies : List String :=
  ["bif", "clp", "djf", "gnf", "jpy", "kmf", "krw", "mga",
   "pyg", "rwf", "vnd", "vuv", "xaf", "xof", "xpf"]

/-- Modelled from the spec: `utils.convert_amount_for_db` of
`pinax/stripe/utils.py`, which is not part of this source tree.  Spec 4.1:
input is an integer minor-unit amount (absent input gives absent output) and a
currency code; zero-decimal currencies pass the integer through unchanged as a
decimal, every other currency divides by 100.  Pure function. -/
def convert_amount_for_db (amount : Option Int) (currency : Option String) :
    Option Rat :=
  match amount with
  | none => none
  | some a =>
      if zero_decimal_currencies.contains (currency.getD "") then
        some (a : Rat)
      else
        some ((a : Rat) / 100)

/-- Modelled from the spec: `utils.update_with_defaults` of
`pinax/stripe/utils.py`, which is not part of this source tree.  Spec 4.2: if
the record was just created it already carries the defaults, return it
unchanged with no write; otherwise compare the default fields with the
record's current values and, when any differ, assign them all and persist the
record once.  `applyD` assigns every defaults field of the entity, keeping the
key; the returned flag says whether a save (one row write) occurred. -/
def update_with_defaults {R D : Type} [DecidableEq R]
    (applyD : R → D → R) (record : R) (defaults : D) (created : Bool) :
    R × Bool :=
  if created then (record, false)
  else
    let r := applyD record defaults
    if r = record then (record, false) else (r, true)

/-- Local mirror of a Stripe customer (`models.Customer`): primary key and
external identifier. -/
structure Customer where
  pk : Nat
  stripe_id : String
deriving DecidableEq, Repr

/-- Embeds `models.Customer.objects.get(stripe_id=key)`: the unique-key lookup used
by the order sync routine.  `none` is Django's `DoesNotExist`. -/
def lookupCustomer (customers : List Customer) (key : Option String) :
    Option Customer :=
  customers.find? (fun c => decide (some c.stripe_id = key))

/-- A remote order payload as read by `sync_order_from_stripe_data` via
`stripe_order.get(...)`: every field it reads, as an optional value. -/
structure StripeOrderPayload where
  id : Option String
  customer : Option String
  charge : Option String
  amount : Option Int
  amount_returned : Option Int
  currency : Option String
  livemode : Option Bool
  metadata : Option String
  selected_shipping_method : Option String
  shipping : Option String
  shipping_methods : Option String
  status : Option String
  status_transitions : Option String
  items : Option String
deriving DecidableEq, Repr

/-- The defaults mapping `sync_order_from_stripe_data` builds; the `charge`
and `customer` fields hold local primary keys after foreign-key resolution. -/
structure OrderDefaults where
  amount : Option Rat
  amount_returned : Option Rat
  charge : Option Nat
  currency : Option String
  customer : Nat
  livemode : Option Bool
  metadata : Option String
  selected_shipping_method : Option String
  shipping : Option String
  shipping_methods : Option String
  status : Option String
  status_transitions : Option String
  items : Option String
deriving DecidableEq, Repr

/-- Local mirror of an order (`models.Order`): the external identifier plus
every field of the defaults mapping. -/
structure Order where
  stripe_id : Option String
  amount : Option Rat
  amount_returned : Option Rat
  charge : Option Nat
  currency : Option String
  customer : Nat
  livemode : Option Bool
  metadata : Option String
  selected_shipping_method : Option String
  shipping : Option String
  shipping_methods : Option String
  status : Option String
  status_transitions : Option String
  items : Option String
deriving DecidableEq, Repr

/-- Assign every defaults field of a local order, keeping its key. -/
def applyOrderDefaults (o : Order) (d : OrderDefaults) : Order :=
  { stripe_id := o.stripe_id
    amount := d.amount
    amount_returned := d.amount_returned
    charge := d.charge
    currency := d.currency
    customer := d.customer
    livemode := d.livemode
    metadata := d.metadata
    selected_shipping_method := d.selected_shipping_method
    shipping := d.shipping
    shipping_methods := d.shipping_methods
    status := d.status
    status_transitions := d.status_transitions
    items := d.items }

/-- A fresh local order as `get_or_create` builds it: key plus defaults. -/
def newOrder (id : Option String) (d : OrderDefaults) : Order :=
  applyOrderDefaults
    { stripe_id := id, amount := none, amount_returned := none, charge := none,
      currency := none, customer := 0, livemode := none, metadata := none,
      selected_shipping_method := none, shipping := none,
      shipping_methods := none, status := none, status_transitions := none,
      items := none } d

/-- The `get_or_create` lookup on the order table: first row with the given
external identifier. -/
def findOrder (orders : List Order) (id : Option String) : Option Order :=
  orders.find? (fun o => decide (o.stripe_id = id))

/-- Number of order rows carrying the given external identifier. -/
def countOrdersById (orders : List Order) (id : Option String) : Nat :=
  (orders.filter (fun o => decide (o.stripe_id = id))).length

/-- A `save()` on an existing order row: replace the row(s) with that key. -/
def replaceOrder (orders : List Order) (id : Option String) (o2 : Order) :
    List Order :=
  orders.map (fun o => if o.stripe_id = id then o2 else o)

/-- The defaults-mapping construction of `sync_order_from_stripe_data`,
factored out.  `chargeSync` is the oracle for
`charges.sync_charge_from_stripe_data(stripe.Charge.retrieve(charge))`
(the charge sync routine lives outside this source tree): given the remote
charge identifier it yields the local charge's key, deterministically.  A
falsy `charge` value is skipped by the `if charge:` guard, so the defaults
carry no charge; `amount_returned` is converted only when truthy, else
`None`. -/
def buildOrderDefaults (chargeSync : String → Nat) (customerPk : Nat)
    (p : StripeOrderPayload) : OrderDefaults :=
  { amount := convert_amount_for_db p.amount p.currency
    amount_returned :=
      if pyTruthyInt p.amount_returned then
        convert_amount_for_db p.amount_returned p.currency
      else none
    charge :=
      if pyTruthyStr p.charge then some (chargeSync (p.charge.getD ""))
      else none
    currency := p.currency
    customer := customerPk
    livemode := p.livemode
    metadata := p.metadata
    selected_shipping_method := p.selected_shipping_method
    shipping := p.shipping
    shipping_methods := p.shipping_methods
    status := p.status
    status_transitions := p.status_transitions
    items := p.items }

/-- Embeds `orders.sync_order_from_stripe_data(stripe_order)`: look up the local
customer by the payload's customer identifier (a miss raises `DoesNotExist`),
build the defaults mapping, then `get_or_create` on the external identifier
followed by `update_with_defaults`.  Returns the new order table, the
reconciled order and the number of order-row writes. -/
def sync_order_from_stripe_data (chargeSync : String → Nat)
    (customers : List Customer) (orders : List Order)
    (p : StripeOrderPayload) :
    Except PyError (List Order × Order × Nat) :=
  match lookupCustomer customers p.customer with
  | none => .error (.doesNotExist "Customer matching query does not exist.")
  | some customer =>
      let defaults : OrderDefaults :=
        buildOrderDefaults chargeSync customer.pk p
      match findOrder orders p.id with
      | none =>
          let o := newOrder p.id defaults
          let r := update_with_defaults applyOrderDefaults o defaults true
          .ok (orders ++ [r.1], r.1, 1 + (if r.2 then 1 else 0))
      | some o =>
          let r := update_with_defaults applyOrderDefaults o defaults false
          .ok ((if r.2 then replaceOrder orders p.id r.1 else orders), r.1,
               (if r.2 then 1 else 0))

/-- A remote plan payload as read by `sync_plans` via bracket access
(`plan["x"]`); bracket-accessed keys are assumed present, an `Option` type
still records that the JSON value may be null. -/
structure StripePlanPayload where
  id : String
  amount : Option Int
  currency : Option String
  interval : String
  interval_count : Int
  name : String
  statement_descriptor : Option String
  trial_period_days : Option Int
deriving DecidableEq, Repr

/-- The defaults mapping `sync_plans` builds for one plan. -/
structure PlanDefaults where
  amount : Option Rat
  currency : String
  interval : String
  interval_count : Int
  name : String
  statement_descriptor : String
  trial_period_days : Option Int
deriving DecidableEq, Repr

/-- Local mirror of a plan (`models.Plan` via `proxies.PlanProxy`). -/
structure Plan where
  stripe_id : String
  amount : Option Rat
  currency : String
  interval : String
  interval_count : Int
  name : String
  statement_descriptor : String
  trial_period_days : Option Int
deriving DecidableEq, Repr

/-- Assign every defaults field of a local plan, keeping its key. -/
def applyPlanDefaults (pl : Plan) (d : PlanDefaults) : Plan :=
  { stripe_id := pl.stripe_id
    amount := d.amount
    currency := d.currency
    interval := d.interval
    interval_count := d.interval_count
    name := d.name
    statement_descriptor := d.statement_descriptor
    trial_period_days := d.trial_period_days }

/-- A fresh local plan as `get_or_create` builds it: key plus defaults. -/
def newPlan (id : String) (d : PlanDefaults) : Plan :=
  applyPlanDefaults
    { stripe_id := id, amount := none, currency := "", interval := "",
      interval_count := 0, name := "", statement_descriptor := "",
      trial_period_days := none } d

/-- Number of plan rows carrying the given external identifier. -/
def countPlansById (plans : List Plan) (id : String) : Nat :=
  (plans.filter (fun pl => decide (pl.stripe_id = id))).length

/-- A `save()` on an existing plan row: replace the row(s) with that key. -/
def replacePlan (plans : List Plan) (id : String) (pl2 : Plan) : List Plan :=
  plans.map (fun pl => if pl.stripe_id = id then pl2 else pl)

/-- The defaults mapping `sync_plans` builds for one remote plan:
`currency` and `statement_descriptor` fall back to `""` through Python's
`or`, the amount goes through the Amount Converter. -/
def buildPlanDefaults (p : StripePlanPayload) : PlanDefaults :=
  { amount := convert_amount_for_db p.amount p.currency
    currency := p.currency.getD ""
    interval := p.interval
    interval_count := p.interval_count
    name := p.name
    statement_descriptor := p.statement_descriptor.getD ""
    trial_period_days := p.trial_period_days }

/-- The body of `sync_plans` for one remote plan: build the defaults
mapping, then `get_or_create` on the external identifier followed by
`update_with_defaults`.  Returns the new plan table and the number of
plan-row writes. -/
def syncOnePlan (plans : List Plan) (p : StripePlanPayload) :
    List Plan × Nat :=
  let defaults : PlanDefaults := buildPlanDefaults p
  match plans.find? (fun pl => decide (pl.stripe_id = p.id)) with
  | none =>
      let obj := newPlan p.id defaults
      let r := update_with_defaults applyPlanDefaults obj defaults true
      (plans ++ [r.1], 1 + (if r.2 then 1 else 0))
  | some obj =>
      let r := update_with_defaults applyPlanDefaults obj defaults false
      ((if r.2 then replacePlan plans p.id r.1 else plans),
       (if r.2 then 1 else 0))

/-- Embeds `plans.sync_plans()`: iterate the remote plan listing
(`stripe.Plan.all().data`, passed in as the oracle `remote`), upserting each
plan.  Returns the new plan table and the total number of plan-row writes. -/
def sync_plans (remote : List StripePlanPayload) (plans : List Plan) :
    List Plan × Nat :=
  remote.foldl (fun acc p =>
    let r := syncOnePlan acc.1 p
    (r.1, acc.2 + r.2)) (plans, 0)

/-- Python's `haystack.find(needle) >= 0` on strings: `needle` occurs as a
contiguous substring of `haystack`. -/
def strOccurs (needle : String) (haystack : String) : Bool :=
  go needle.data haystack.data
where
  /-- Scan each suffix of the haystack for the needle at its front. -/
  go (nd : List Char) : List Char → Bool
    | [] => nd.isEmpty
    | c :: rest => nd.isPrefixOf (c :: rest) || go nd rest

/-- Embeds `orders.retrieve(stripe_order_id)`: a falsy identifier short-circuits to
`None` with no remote call; otherwise `stripe.Order.retrieve` is called (its
response is the oracle `remote`); an `InvalidRequestError` whose text contains
"No such order" becomes `None`, any other error is re-raised.  The first
component lists the remote calls made. -/
def retrieve (remote : Except StripeError StripeOrderPayload)
    (stripe_order_id : Option String) :
    List String × Except PyError (Option StripeOrderPayload) :=
  if !pyTruthyStr stripe_order_id then ([], .ok none)
  else
    (["Order.retrieve"],
     match remote with
     | .ok p => .ok (some p)
     | .error (.invalidRequestError msg) =>
         if strOccurs "No such order" msg then .ok none
         else .error (.stripeErr (.invalidRequestError msg))
     | .error (.apiError msg) => .error (.stripeErr (.apiError msg)))

/-- Embeds `orders.create(customer, items, ...)`, for the arguments that
steer its control flow.  The parameters that only feed the remote
`stripe.Order.create` call (customer id, item list, currency, shipping,
coupon, metadata) are elided: that call's response is the oracle parameter
`createdRemote`, and `payOutcome` is the oracle for the immediate
`stripe_order.pay` attempt.  Control flow of the source: if `pay_immediately`
is requested without a truthy `source`, a `ValueError` is raised before any
remote call; otherwise the remote order is created; if `pay_immediately`, the
`pay` helper is tried and a `stripe.InvalidRequestError` from it is swallowed
(any other exception propagates), leaving the created, unpaid remote order to
be synchronized.  When the pay attempt succeeds, `pay` returns a local Order
record, which the source then feeds to `sync_order_from_stripe_data`; that
function immediately calls `.get` on its argument, which a local record does
not support, so that branch raises an `AttributeError` (no claim concerns
it).  The first component lists the remote calls made. -/
def ordersCreate (chargeSync : String → Nat)
    (createdRemote : StripeOrderPayload)
    (payOutcome : Except StripeError StripeOrderPayload)
    (customers : List Customer) (orders : List Order)
    (source : Option String) (pay_immediately : Bool) :
    List String × Except PyError (List Order × Order × Nat) :=
  if pay_immediately && !pyTruthyStr source then
    ([], .error (.valueError
      "You need a source in order to use pay_immediately"))
  else
    let calls := ["Order.create"]
    if pay_immediately then
      let calls := calls ++ ["order.pay"]
      match payOutcome with
      | .ok _paid =>
          (calls, .error (.attributeError
            "Order object has no attribute get"))
      | .error (.invalidRequestError _msg) =>
          -- swallowed: the created, unpaid remote order is synchronized
          (calls,
           sync_order_from_stripe_data chargeSync customers orders
             createdRemote)
      | .error (.apiError msg) =>
          (calls, .error (.stripeErr (.apiError msg)))
    else
      (calls,
       sync_order_from_stripe_data chargeSync customers orders createdRemote)

/-- Embeds `orders.create_return(order, items)`: builds the return parameters from
`items`, issues `stripe_order.return_order(**return_params)` whose response
(the oracle `returnResponse`) is discarded, then synchronizes from the
original in-memory `stripe_order` payload.  The first component lists the
remote calls made. -/
def create_return (chargeSync : String → Nat)
    (customers : List Customer) (orders : List Order)
    (stripe_order : StripeOrderPayload) (_items : Option String)
    (_returnResponse : StripeOrderPayload) :
    List String × Except PyError (List Order × Order × Nat) :=
  (["order.return_order"],
   sync_order_from_stripe_data chargeSync customers orders stripe_order)

/-- A local card row (`models.Card`): key, owning customer, fingerprint. -/
structure Card where
  pk : Nat
  customer : Nat
  fingerprint : String
deriving DecidableEq, Repr

/-- A local invoice row (`models.Invoice`): key and owning customer. -/
structure Invoice where
  pk : Nat
  customer : Nat
deriving DecidableEq, Repr

/-- A local subscription row (`models.Subscription`). -/
structure Subscription where
  pk : Nat
  customer : Nat
  status : String
deriving DecidableEq, Repr

/-- Embeds `CustomerHasCardListFilter.queryset` (admin.py): with value `"yes"` it
applies `filter(card__isnull=True)`, i.e. keeps the customers related to no
card row; with value `"no"` it applies `filter(card__isnull=False)`, i.e.
keeps the customers related to at least one card row (as a set — the SQL
join's duplicate rows are immaterial here); otherwise `queryset.all()`. -/
def customer_has_card_queryset (value : Option String) (cards : List Card)
    (qs : List Customer) : List Customer :=
  if value = some "yes" then
    qs.filter (fun c => !(cards.any (fun k => decide (k.customer = c.pk))))
  else if value = some "no" then
    qs.filter (fun c => cards.any (fun k => decide (k.customer = c.pk)))
  else qs

/-- Embeds `InvoiceCustomerHasCardListFilter.queryset` (admin.py): the same two
branches over `customer__card__isnull` on the invoice's customer. -/
def invoice_customer_has_card_queryset (value : Option String)
    (cards : List Card) (qs : List Invoice) : List Invoice :=
  if value = some "yes" then
    qs.filter (fun i => !(cards.any (fun k => decide (k.customer = i.customer))))
  else if value = some "no" then
    qs.filter (fun i => cards.any (fun k => decide (k.customer = i.customer)))
  else qs

/-- Embeds `CustomerSubscriptionStatusListFilter.queryset` (admin.py): value
`"none"` keeps the customers whose annotated subscription count is zero; any
other truthy value keeps the customers appearing in the distinct customer
list of the subscriptions with that status; no (falsy) value returns
`queryset.all()`. -/
def customer_subscription_status_queryset (value : Option String)
    (subs : List Subscription) (qs : List Customer) : List Customer :=
  if value = some "none" then
    qs.filter (fun c =>
      decide ((subs.filter (fun s => decide (s.customer = c.pk))).length = 0))
  else if pyTruthyStr value then
    let customerKeys :=
      (subs.filter (fun s => decide (s.status = value.getD ""))).map
        (fun s => s.customer)
    qs.filter (fun c => decide (c.pk ∈ customerKeys))
  else qs

/-- C1: the claim says `has_card=no` selects exactly the customers with no
(non-empty-fingerprint) card and `has_card=yes` those with at least one
related card, matching the filter's own lookup labels; but the code's
branches are inverted: at a customer `cus_1` owning one card with a non-empty
fingerprint, `has_card=yes` (`filter(card__isnull=True)`) drops the customer
and `has_card=no` (`filter(card__isnull=False)`) keeps it, and likewise for
the invoice list filter over the invoice's customer. -/
theorem has_card_filter_inverted_at_carded_customer :
    customer_has_card_queryset (some "yes") [⟨10, 1, "fp1"⟩] [⟨1, "cus_1"⟩]
      = [] ∧
    customer_has_card_queryset (some "no") [⟨10, 1, "fp1"⟩] [⟨1, "cus_1"⟩]
      = [⟨1, "cus_1"⟩] ∧
    invoice_customer_has_card_queryset (some "yes") [⟨10, 1, "fp1"⟩] [⟨5, 1⟩]
      = [] ∧
    invoice_customer_has_card_queryset (some "no") [⟨10, 1, "fp1"⟩] [⟨5, 1⟩]
      = [⟨5, 1⟩] := by
  decide

/-- C7: the subscription-status list filter is correct: value `"none"` keeps
exactly the customers of the queryset with zero subscriptions, a specific
(non-`"none"`, non-empty) status value keeps exactly the customers with at
least one subscription of that status, and no selected value leaves the
queryset unrestricted. -/
theorem subscription_status_filter_correct (value : Option String)
    (subs : List Subscription) (qs : List Customer) (c : Customer)
    (v : String) :
    (value = some "none" →
      (c ∈ customer_subscription_status_queryset value subs qs ↔
        c ∈ qs ∧ ∀ s ∈ subs, s.customer ≠ c.pk)) ∧
    (value = some v → v ≠ "none" → v ≠ "" →
      (c ∈ customer_subscription_status_queryset value subs qs ↔
        c ∈ qs ∧ ∃ s ∈ subs, s.status = v ∧ s.customer = c.pk)) ∧
    (value = none → customer_subscription_status_queryset value subs qs = qs) := by
  refine ⟨?_, ?_, ?_⟩
  · rintro rfl
    simp [customer_subscription_status_queryset, List.mem_filter,
      List.length_eq_zero, List.filter_eq_nil_iff]
  · rintro rfl hne hne2
    have h1 : (some v = some "none") = False := by
      simp [hne]
    simp [customer_subscription_status_queryset, h1, pyTruthyStr, hne2,
      List.mem_filter, List.mem_map]
    intro _
    constructor
    · rintro ⟨s, ⟨hs, hst⟩, hc⟩
      exact ⟨s, hs, hst, hc⟩
    · rintro ⟨s, hs, hst, hc⟩
      exact ⟨s, ⟨hs, hst⟩, hc⟩
  · rintro rfl
    simp [customer_subscription_status_queryset, pyTruthyStr]

/-- C7 witness: the filter applied at concrete tables. -/
theorem subscription_status_filter_correct_witness :
    ((some "active" : Option String) = some "active" ∧ "active" ≠ "none" ∧
      "active" ≠ "") ∧
    ((⟨1, "cus_1"⟩ : Customer) ∈
        customer_subscription_status_queryset (some "active")
          [⟨7, 1, "active"⟩] [⟨1, "cus_1"⟩] ↔
      (⟨1, "cus_1"⟩ : Customer) ∈ [(⟨1, "cus_1"⟩ : Customer)] ∧
        ∃ s ∈ [(⟨7, 1, "active"⟩ : Subscription)],
          s.status = "active" ∧ s.customer = 1) :=
  ⟨⟨rfl, by decide, by decide⟩,
   (subscription_status_filter_correct (some "active") [⟨7, 1, "active"⟩]
       [⟨1, "cus_1"⟩] ⟨1, "cus_1"⟩ "active").2.1 rfl (by decide) (by decide)⟩

/-- A concrete order payload with the fields the witnesses vary; everything
else absent. -/
def mkPayload (id customer : Option String)
    (amount amount_returned : Option Int) (currency : Option String) :
    StripeOrderPayload :=
  { id := id, customer := customer, charge := none, amount := amount,
    amount_returned := amount_returned, currency := currency,
    livemode := none, metadata := none, selected_shipping_method := none,
    shipping := none, shipping_methods := none, status := none,
    status_transitions := none, items := none }

/-- Whenever the order sync routine succeeds, the returned order carries
exactly the defaults mapping built from the payload (on every defaults
field; shown here for `amount_returned`). -/
lemma sync_order_ok_amount_returned (chargeSync : String → Nat)
    (customers : List Customer) (orders : List Order)
    (p : StripeOrderPayload) (c : Customer) (os : List Order) (o : Order)
    (w : Nat)
    (hc : lookupCustomer customers p.customer = some c)
    (hr : sync_order_from_stripe_data chargeSync customers orders p
      = .ok (os, o, w)) :
    o.amount_returned = (buildOrderDefaults chargeSync c.pk p).amount_returned := by
  unfold sync_order_from_stripe_data at hr
  rw [hc] at hr
  cases hf : findOrder orders p.id with
  | none =>
      rw [hf] at hr
      simp only [update_with_defaults, Except.ok.injEq, Prod.mk.injEq] at hr
      obtain ⟨-, h2, -⟩ := hr
      subst h2
      rfl
  | some old =>
      rw [hf] at hr
      by_cases he :
          applyOrderDefaults old (buildOrderDefaults chargeSync c.pk p) = old
      · simp only [update_with_defaults, he, if_true, if_false,
          Except.ok.injEq, Prod.mk.injEq, Bool.false_eq_true, ite_false,
          ite_true] at hr
        obtain ⟨-, h2, -⟩ := hr
        subst h2
        rw [← he]
        rfl
      · simp only [update_with_defaults, he, Except.ok.injEq,
          Prod.mk.injEq, if_false, ite_false, ite_true] at hr
        obtain ⟨-, h2, -⟩ := hr
        subst h2
        rfl

/-- C5: for every remote order payload whose customer identifier matches no
local customer, the order sync routine propagates the lookup failure
(Django's `DoesNotExist`) to the caller: it returns that error, so no order
is written and no customer is created (the routine has no customer-creation
path; its customer table is read-only). -/
theorem sync_order_missing_customer_propagates (chargeSync : String → Nat)
    (customers : List Customer) (orders : List Order)
    (p : StripeOrderPayload)
    (h : lookupCustomer customers p.customer = none) :
    sync_order_from_stripe_data chargeSync customers orders p =
      .error (.doesNotExist "Customer matching query does not exist.") := by
  unfold sync_order_from_stripe_data
  rw [h]

/-- C5 witness: an empty customer table and a payload naming `cus_missing`. -/
theorem sync_order_missing_customer_propagates_witness :
    lookupCustomer [] (mkPayload (some "or_1") (some "cus_missing") none none
      (some "usd")).customer = none ∧
    sync_order_from_stripe_data (fun _ => 0) [] []
      (mkPayload (some "or_1") (some "cus_missing") none none (some "usd")) =
      .error (.doesNotExist "Customer matching query does not exist.") :=
  ⟨by decide,
   sync_order_missing_customer_propagates (fun _ => 0) [] []
     (mkPayload (some "or_1") (some "cus_missing") none none (some "usd"))
     (by decide)⟩

/-- C3: an order-creation call with `pay_immediately` and a falsy `source`
raises `ValueError` with an empty remote-call trace: the provider is never
called, so no remote order is created. -/
theorem create_without_source_raises_before_remote_call
    (chargeSync : String → Nat) (createdRemote : StripeOrderPayload)
    (payOutcome : Except StripeError StripeOrderPayload)
    (customers : List Customer) (orders : List Order)
    (source : Option String)
    (h : pyTruthyStr source = false) :
    ordersCreate chargeSync createdRemote payOutcome customers orders
      source true =
      ([], .error (.valueError
        "You need a source in order to use pay_immediately")) := by
  simp [ordersCreate, h]

/-- C3 witness: `source=None`. -/
theorem create_without_source_raises_before_remote_call_witness :
    pyTruthyStr none = false ∧
    ordersCreate (fun _ => 0)
      (mkPayload (some "or_1") (some "cus_1") none none (some "usd"))
      (.ok (mkPayload (some "or_1") (some "cus_1") none none (some "usd")))
      [] [] none true =
      ([], .error (.valueError
        "You need a source in order to use pay_immediately")) :=
  ⟨by decide,
   create_without_source_raises_before_remote_call (fun _ => 0)
     (mkPayload (some "or_1") (some "cus_1") none none (some "usd"))
     (.ok (mkPayload (some "or_1") (some "cus_1") none none (some "usd")))
     [] [] none (by decide)⟩

/-- C4: order retrieve: a falsy identifier returns `None` with no remote
call; an `InvalidRequestError` whose text contains "No such order" returns
`None` instead of propagating; an `InvalidRequestError` without that phrase
and any other provider error class propagate unmodified. -/
theorem retrieve_not_found_as_absence
    (remote : Except StripeError StripeOrderPayload) (id : Option String)
    (msg m2 : String) :
    (pyTruthyStr id = false → retrieve remote id = ([], .ok none)) ∧
    (pyTruthyStr id = true → remote = .error (.invalidRequestError msg) →
      strOccurs "No such order" msg = true →
      retrieve remote id = (["Order.retrieve"], .ok none)) ∧
    (pyTruthyStr id = true → remote = .error (.invalidRequestError msg) →
      strOccurs "No such order" msg = false →
      retrieve remote id = (["Order.retrieve"],
        .error (.stripeErr (.invalidRequestError msg)))) ∧
    (pyTruthyStr id = true → remote = .error (.apiError m2) →
      retrieve remote id = (["Order.retrieve"],
        .error (.stripeErr (.apiError m2)))) := by
  refine ⟨?_, ?_, ?_, ?_⟩
  · intro h
    simp [retrieve, h]
  · rintro h rfl hocc
    simp [retrieve, h, hocc]
  · rintro h rfl hocc
    simp [retrieve, h, hocc]
  · rintro h rfl
    simp [retrieve, h]

/-- C4 witness: the not-found branch at a concrete error message. -/
theorem retrieve_not_found_as_absence_witness :
    pyTruthyStr (some "or_x") = true ∧
    strOccurs "No such order" "No such order: or_x" = true ∧
    retrieve (.error (.invalidRequestError "No such order: or_x"))
      (some "or_x") = (["Order.retrieve"], .ok none) :=
  ⟨by decide, by decide,
   (retrieve_not_found_as_absence
     (.error (.invalidRequestError "No such order: or_x")) (some "or_x")
     "No such order: or_x" "").2.1 (by decide) rfl (by decide)⟩

/-- The Amount Converter maps a present zero to the decimal zero, for every
currency. -/
lemma convert_amount_for_db_zero (cur : Option String) :
    convert_amount_for_db (some 0) cur = some 0 := by
  unfold convert_amount_for_db
  by_cases h : zero_decimal_currencies.contains (cur.getD "")
  · simp [h]
  · simp [h]

/-- C9: the order sync routine stores an absent `amount_returned` when the
remote value is exactly zero, because presence is tested by truthiness: the
stored value is `None`, not the converted decimal 0 the Amount Converter
would produce. -/
theorem sync_order_zero_amount_returned_stored_absent
    (chargeSync : String → Nat) (customers : List Customer)
    (orders : List Order) (p : StripeOrderPayload) (c : Customer)
    (os : List Order) (o : Order) (w : Nat)
    (hc : lookupCustomer customers p.customer = some c)
    (hz : p.amount_returned = some 0)
    (hr : sync_order_from_stripe_data chargeSync customers orders p
      = .ok (os, o, w)) :
    o.amount_returned = none ∧
    convert_amount_for_db p.amount_returned p.currency = some 0 := by
  constructor
  · rw [sync_order_ok_amount_returned chargeSync customers orders p c os o w
      hc hr]
    simp [buildOrderDefaults, pyTruthyInt, hz]
  · rw [hz]
    exact convert_amount_for_db_zero p.currency

/-- C9 witness: a payload with `amount_returned = 0` against a one-customer
table. -/
theorem sync_order_zero_amount_returned_stored_absent_witness :
    lookupCustomer [⟨1, "cus_1"⟩]
      (mkPayload (some "or_1") (some "cus_1") none (some 0)
        (some "usd")).customer = some ⟨1, "cus_1"⟩ ∧
    (mkPayload (some "or_1") (some "cus_1") none (some 0)
      (some "usd")).amount_returned = some 0 ∧
    ((newOrder (some "or_1")
        (buildOrderDefaults (fun _ => 0) 1
          (mkPayload (some "or_1") (some "cus_1") none (some 0)
            (some "usd")))).amount_returned = none ∧
      convert_amount_for_db
        (mkPayload (some "or_1") (some "cus_1") none (some 0)
          (some "usd")).amount_returned
        (mkPayload (some "or_1") (some "cus_1") none (some 0)
          (some "usd")).currency = some 0) :=
  ⟨by decide, by decide,
   sync_order_zero_amount_returned_stored_absent (fun _ => 0)
     [⟨1, "cus_1"⟩] []
     (mkPayload (some "or_1") (some "cus_1") none (some 0) (some "usd"))
     ⟨1, "cus_1"⟩
     [newOrder (some "or_1")
       (buildOrderDefaults (fun _ => 0) 1
         (mkPayload (some "or_1") (some "cus_1") none (some 0)
           (some "usd")))]
     (newOrder (some "or_1")
       (buildOrderDefaults (fun _ => 0) 1
         (mkPayload (some "or_1") (some "cus_1") none (some 0)
           (some "usd"))))
     1 (by decide) (by decide) (by decide)⟩

/-- Whenever the customer lookup succeeds, the order sync routine returns
normally (both the create and the update branch produce an `ok` result). -/
lemma sync_order_ok_of_customer (chargeSync : String → Nat)
    (customers : List Customer) (orders : List Order)
    (p : StripeOrderPayload) (c : Customer)
    (hc : lookupCustomer customers p.customer = some c) :
    ∃ os o w, sync_order_from_stripe_data chargeSync customers orders p
      = .ok (os, o, w) := by
  unfold sync_order_from_stripe_data
  rw [hc]
  cases findOrder orders p.id with
  | none => exact ⟨_, _, _, rfl⟩
  | some old => exact ⟨_, _, _, rfl⟩

/-- C2: order creation with `pay_immediately` and a truthy source: when the
immediate pay attempt fails with the provider's `InvalidRequestError`, the
failure is swallowed and the function returns the synchronized local order
built from the created, unpaid remote order (no exception escapes, since the
sync succeeds); when the pay attempt fails with any other error class, that
failure propagates. -/
theorem create_pay_failure_handling (chargeSync : String → Nat)
    (createdRemote : StripeOrderPayload) (customers : List Customer)
    (orders : List Order) (source : Option String) (c : Customer)
    (msg m2 : String)
    (hs : pyTruthyStr source = true)
    (hc : lookupCustomer customers createdRemote.customer = some c) :
    (ordersCreate chargeSync createdRemote
        (.error (.invalidRequestError msg)) customers orders source true =
      (["Order.create", "order.pay"],
        sync_order_from_stripe_data chargeSync customers orders
          createdRemote) ∧
      ∃ os o w, sync_order_from_stripe_data chargeSync customers orders
        createdRemote = .ok (os, o, w)) ∧
    ordersCreate chargeSync createdRemote (.error (.apiError m2))
        customers orders source true =
      (["Order.create", "order.pay"],
        .error (.stripeErr (.apiError m2))) := by
  refine ⟨⟨?_, ?_⟩, ?_⟩
  · simp [ordersCreate, hs]
  · exact sync_order_ok_of_customer chargeSync customers orders
      createdRemote c hc
  · simp [ordersCreate, hs]

/-- C2 witness: a concrete customer, source token and error messages. -/
theorem create_pay_failure_handling_witness :
    pyTruthyStr (some "tok_x") = true ∧
    lookupCustomer [⟨1, "cus_1"⟩]
      (mkPayload (some "or_1") (some "cus_1") none none
        (some "usd")).customer = some ⟨1, "cus_1"⟩ ∧
    ((ordersCreate (fun _ => 0)
        (mkPayload (some "or_1") (some "cus_1") none none (some "usd"))
        (.error (.invalidRequestError "Cannot pay")) [⟨1, "cus_1"⟩] []
        (some "tok_x") true =
       (["Order.create", "order.pay"],
         sync_order_from_stripe_data (fun _ => 0) [⟨1, "cus_1"⟩] []
           (mkPayload (some "or_1") (some "cus_1") none none
             (some "usd"))) ∧
       ∃ os o w, sync_order_from_stripe_data (fun _ => 0) [⟨1, "cus_1"⟩] []
         (mkPayload (some "or_1") (some "cus_1") none none (some "usd"))
         = .ok (os, o, w)) ∧
      ordersCreate (fun _ => 0)
        (mkPayload (some "or_1") (some "cus_1") none none (some "usd"))
        (.error (.apiError "API down")) [⟨1, "cus_1"⟩] []
        (some "tok_x") true =
        (["Order.create", "order.pay"],
          .error (.stripeErr (.apiError "API down")))) :=
  ⟨by decide, by decide,
   create_pay_failure_handling (fun _ => 0)
     (mkPayload (some "or_1") (some "cus_1") none none (some "usd"))
     [⟨1, "cus_1"⟩] [] (some "tok_x") ⟨1, "cus_1"⟩ "Cannot pay" "API down"
     (by decide) (by decide)⟩

/-- C10: `create_return` discards the response of the remote return
operation and synchronizes from the original in-memory order payload: its
result does not depend on the return response at all, and equals the sync of
the pre-return payload. -/
theorem create_return_syncs_pre_return_state (chargeSync : String → Nat)
    (customers : List Customer) (orders : List Order)
    (p : StripeOrderPayload) (items : Option String)
    (r1 r2 : StripeOrderPayload) :
    create_return chargeSync customers orders p items r1 =
      create_return chargeSync customers orders p items r2 ∧
    create_return chargeSync customers orders p items r1 =
      (["order.return_order"],
       sync_order_from_stripe_data chargeSync customers orders p) :=
  ⟨rfl, rfl⟩

/-- C8 counterexample: a remote order payload whose `amount_returned` key is
present with value 0: the sync routine stores `None`, while the Amount
Converter applied to the present value with the order's currency would yield
the decimal 0 — so "present implies converted" fails. -/
theorem sync_order_present_zero_not_converted :
    (sync_order_from_stripe_data (fun _ => 0) [⟨1, "cus_1"⟩] []
      (mkPayload (some "or_1") (some "cus_1") none (some 0) (some "usd"))
      ).toOption.map (fun r => r.2.1.amount_returned) = some none ∧
    convert_amount_for_db (some 0) (some "usd") = some 0 ∧
    some (0 : Rat) ≠ (none : Option Rat) := by
  refine ⟨by decide, convert_amount_for_db_zero (some "usd"), by decide⟩

/-- C8 amended: an absent `amount_returned` is stored absent (not zero); a
present non-zero `amount_returned` is converted via the Amount Converter
using the order's currency; a present zero is stored absent as well (Python
truthiness conflates it with absence). -/
theorem sync_order_amount_returned_amended (chargeSync : String → Nat)
    (customers : List Customer) (orders : List Order)
    (p : StripeOrderPayload) (c : Customer) (os : List Order) (o : Order)
    (w : Nat) (n : Int)
    (hc : lookupCustomer customers p.customer = some c)
    (hr : sync_order_from_stripe_data chargeSync customers orders p
      = .ok (os, o, w)) :
    (p.amount_returned = none → o.amount_returned = none) ∧
    (p.amount_returned = some n → n ≠ 0 →
      o.amount_returned = convert_amount_for_db p.amount_returned
        p.currency) ∧
    (p.amount_returned = some 0 → o.amount_returned = none) := by
  have hkey := sync_order_ok_amount_returned chargeSync customers orders p c
    os o w hc hr
  refine ⟨?_, ?_, ?_⟩
  · intro h
    rw [hkey]
    simp [buildOrderDefaults, pyTruthyInt, h]
  · intro h hn
    rw [hkey]
    simp [buildOrderDefaults, pyTruthyInt, h, hn]
  · intro h
    rw [hkey]
    simp [buildOrderDefaults, pyTruthyInt, h]

/-- C8 amended witness: a present `amount_returned` of 250 minor units. -/
theorem sync_order_amount_returned_amended_witness :
    lookupCustomer [⟨1, "cus_1"⟩]
      (mkPayload (some "or_1") (some "cus_1") none (some 250)
        (some "usd")).customer = some ⟨1, "cus_1"⟩ ∧
    (mkPayload (some "or_1") (some "cus_1") none (some 250)
      (some "usd")).amount_returned = some 250 ∧ (250 : Int) ≠ 0 ∧
    (newOrder (some "or_1")
        (buildOrderDefaults (fun _ => 0) 1
          (mkPayload (some "or_1") (some "cus_1") none (some 250)
            (some "usd")))).amount_returned =
      convert_amount_for_db
        (mkPayload (some "or_1") (some "cus_1") none (some 250)
          (some "usd")).amount_returned
        (mkPayload (some "or_1") (some "cus_1") none (some 250)
          (some "usd")).currency :=
  ⟨by decide, rfl, by decide,
   (sync_order_amount_returned_amended (fun _ => 0) [⟨1, "cus_1"⟩] []
     (mkPayload (some "or_1") (some "cus_1") none (some 250) (some "usd"))
     ⟨1, "cus_1"⟩
     [newOrder (some "or_1")
       (buildOrderDefaults (fun _ => 0) 1
         (mkPayload (some "or_1") (some "cus_1") none (some 250)
           (some "usd")))]
     (newOrder (some "or_1")
       (buildOrderDefaults (fun _ => 0) 1
         (mkPayload (some "or_1") (some "cus_1") none (some 250)
           (some "usd"))))
     1 250 (by decide) rfl).2.1 rfl (by decide)⟩

/-- A list whose filtered length is zero has no `find?` hit. -/
lemma find_eq_none_of_filter_len_zero {α : Type} (pr : α → Bool)
    (l : List α) (h : (l.filter pr).length = 0) : l.find? pr = none := by
  induction l with
  | nil => rfl
  | cons a t ih =>
      cases hp : pr a with
      | true =>
          rw [List.filter_cons_of_pos hp] at h
          simp at h
      | false =>
          rw [List.filter_cons_of_neg (by simp [hp])] at h
          rw [List.find?_cons_of_neg _ (by simp [hp])]
          exact ih h

/-- A `find?` skips a front segment containing no match. -/
lemma find_append_of_none {α : Type} (pr : α → Bool) (l1 l2 : List α)
    (h : l1.find? pr = none) : (l1 ++ l2).find? pr = l2.find? pr := by
  induction l1 with
  | nil => rfl
  | cons a t ih =>
      cases hp : pr a with
      | true =>
          rw [List.find?_cons_of_pos _ hp] at h
          exact absurd h (by simp)
      | false =>
          rw [List.find?_cons_of_neg _ (by simp [hp])] at h
          rw [List.cons_append, List.find?_cons_of_neg _ (by simp [hp])]
          exact ih h

/-- C6: upsert idempotence of the sync routines.  Running the order sync
twice with the identical payload against a table initially free of that
external identifier leaves exactly one matching row, with the second run
returning the same record and table and performing zero row writes (no
save); likewise for the plan sync over a one-plan remote listing. -/
theorem sync_routines_idempotent (chargeSync : String → Nat)
    (customers : List Customer) (orders : List Order)
    (p : StripeOrderPayload) (c : Customer) (os1 os2 : List Order)
    (o1 o2 : Order) (w1 w2 : Nat) (pp : StripePlanPayload)
    (pdb pdb1 pdb2 : List Plan) (v1 v2 : Nat)
    (hc : lookupCustomer customers p.customer = some c)
    (h0 : countOrdersById orders p.id = 0)
    (hr1 : sync_order_from_stripe_data chargeSync customers orders p
      = .ok (os1, o1, w1))
    (hr2 : sync_order_from_stripe_data chargeSync customers os1 p
      = .ok (os2, o2, w2))
    (hp0 : countPlansById pdb pp.id = 0)
    (hq1 : sync_plans [pp] pdb = (pdb1, v1))
    (hq2 : sync_plans [pp] pdb1 = (pdb2, v2)) :
    (countOrdersById os2 p.id = 1 ∧ os2 = os1 ∧ o2 = o1 ∧ w2 = 0) ∧
    (countPlansById pdb2 pp.id = 1 ∧ pdb2 = pdb1 ∧ v2 = 0) := by
  constructor
  · -- order sync part
    have h0' : (orders.filter (fun o => decide (o.stripe_id = p.id))).length
        = 0 := h0
    have h0m : ∀ a ∈ orders, ¬ a.stripe_id = p.id := by
      intro a ha hEq
      have hfil := List.length_eq_zero.mp h0'
      have hmem : a ∈ orders.filter (fun o => decide (o.stripe_id = p.id)) :=
        List.mem_filter.mpr ⟨ha, by simp [hEq]⟩
      rw [hfil] at hmem
      exact absurd hmem (List.not_mem_nil a)
    have hfind : findOrder orders p.id = none :=
      find_eq_none_of_filter_len_zero _ orders h0'
    unfold sync_order_from_stripe_data at hr1 hr2
    rw [hc, hfind] at hr1
    simp [update_with_defaults] at hr1
    obtain ⟨hos1, ho1, hw1⟩ := hr1
    have hOid : ((newOrder p.id (buildOrderDefaults chargeSync c.pk p)
        ).stripe_id = p.id) := rfl
    have hfind2 : findOrder os1 p.id =
        some (newOrder p.id (buildOrderDefaults chargeSync c.pk p)) := by
      rw [← hos1]
      unfold findOrder
      rw [find_append_of_none _ orders _ hfind]
      simp [List.find?, hOid]
    rw [hc, hfind2] at hr2
    have hstable :
        applyOrderDefaults
          (newOrder p.id (buildOrderDefaults chargeSync c.pk p))
          (buildOrderDefaults chargeSync c.pk p) =
        newOrder p.id (buildOrderDefaults chargeSync c.pk p) := rfl
    simp [update_with_defaults, hstable] at hr2
    obtain ⟨hos2, ho2, hw2⟩ := hr2
    refine ⟨?_, hos2.symm, ho2.symm.trans ho1, hw2.symm⟩
    rw [← hos2, ← hos1]
    simp [countOrdersById, List.filter_append, hOid]
    exact h0m
  · -- plan sync part
    have hp0' : (pdb.filter (fun pl => decide (pl.stripe_id = pp.id))).length
        = 0 := hp0
    have hp0m : ∀ a ∈ pdb, ¬ a.stripe_id = pp.id := by
      intro a ha hEq
      have hfil := List.length_eq_zero.mp hp0'
      have hmem : a ∈ pdb.filter (fun pl => decide (pl.stripe_id = pp.id)) :=
        List.mem_filter.mpr ⟨ha, by simp [hEq]⟩
      rw [hfil] at hmem
      exact absurd hmem (List.not_mem_nil a)
    have hpfind : pdb.find? (fun pl => decide (pl.stripe_id = pp.id))
        = none := find_eq_none_of_filter_len_zero _ pdb hp0'
    unfold sync_plans at hq1 hq2
    simp only [List.foldl] at hq1 hq2
    unfold syncOnePlan at hq1 hq2
    rw [hpfind] at hq1
    simp [update_with_defaults] at hq1
    obtain ⟨hpdb1, hv1⟩ := hq1
    have hPid : ((newPlan pp.id (buildPlanDefaults pp)).stripe_id = pp.id)
        := rfl
    have hpfind2 : pdb1.find? (fun pl => decide (pl.stripe_id = pp.id)) =
        some (newPlan pp.id (buildPlanDefaults pp)) := by
      rw [← hpdb1]
      rw [find_append_of_none _ pdb _ hpfind]
      simp [List.find?, hPid]
    rw [hpfind2] at hq2
    have hpstable :
        applyPlanDefaults (newPlan pp.id (buildPlanDefaults pp))
          (buildPlanDefaults pp) = newPlan pp.id (buildPlanDefaults pp)
        := rfl
    simp [update_with_defaults, hpstable] at hq2
    obtain ⟨hpdb2, hv2⟩ := hq2
    refine ⟨?_, hpdb2.symm, hv2.symm⟩
    rw [← hpdb2, ← hpdb1]
    simp [countPlansById, List.filter_append, hPid]
    exact hp0m

/-- A concrete remote order payload used to exercise the idempotence
theorem. -/
def sampleOrderPayload : StripeOrderPayload :=
  mkPayload (some "or_1") (some "cus_1") none none (some "usd")

/-- The local order row the first sync run creates from
`sampleOrderPayload`. -/
def sampleOrderRow : Order :=
  newOrder (some "or_1") (buildOrderDefaults (fun _ => 0) 1 sampleOrderPayload)

/-- A concrete remote plan payload used to exercise the idempotence
theorem. -/
def samplePlanPayload : StripePlanPayload :=
  { id := "p1", amount := none, currency := some "usd", interval := "month",
    interval_count := 1, name := "Pro", statement_descriptor := none,
    trial_period_days := none }

/-- The local plan row the first sync run creates from
`samplePlanPayload`. -/
def samplePlanRow : Plan :=
  newPlan "p1" (buildPlanDefaults samplePlanPayload)

/-- C6 witness: both sync routines run twice at concrete inputs. -/
theorem sync_routines_idempotent_witness :
    (lookupCustomer [⟨1, "cus_1"⟩] sampleOrderPayload.customer
        = some ⟨1, "cus_1"⟩ ∧
      countOrdersById [] sampleOrderPayload.id = 0 ∧
      sync_order_from_stripe_data (fun _ => 0) [⟨1, "cus_1"⟩] []
        sampleOrderPayload = .ok ([sampleOrderRow], sampleOrderRow, 1) ∧
      sync_order_from_stripe_data (fun _ => 0) [⟨1, "cus_1"⟩]
        [sampleOrderRow] sampleOrderPayload
        = .ok ([sampleOrderRow], sampleOrderRow, 0) ∧
      countPlansById [] samplePlanPayload.id = 0 ∧
      sync_plans [samplePlanPayload] [] = ([samplePlanRow], 1) ∧
      sync_plans [samplePlanPayload] [samplePlanRow]
        = ([samplePlanRow], 0)) ∧
    ((countOrdersById [sampleOrderRow] sampleOrderPayload.id = 1 ∧
        [sampleOrderRow] = [sampleOrderRow] ∧
        sampleOrderRow = sampleOrderRow ∧ (0 : Nat) = 0) ∧
      (countPlansById [samplePlanRow] samplePlanPayload.id = 1 ∧
        [samplePlanRow] = [samplePlanRow] ∧ (0 : Nat) = 0)) :=
  ⟨by decide,
   sync_routines_idempotent (fun _ => 0) [⟨1, "cus_1"⟩] []
     sampleOrderPayload ⟨1, "cus_1"⟩ [sampleOrderRow] [sampleOrderRow]
     sampleOrderRow sampleOrderRow 1 0 samplePlanPayload [] [samplePlanRow]
     [samplePlanRow] 1 0 (by decide) (by decide) (by decide) (by decide)
     (by decide) (by decide) (by decide)⟩
